import Mathlib

/-!
Verification of the session clock and position rotator of the Pomodoro
timer component.

The repository holds two versions of the component:

* `src/src/components/Pomodoro.tsx` — the anchor-based version: the
  interval callback and the visibility-change handler recompute the
  remaining time from `now - sessionStartTime` and fire at most one
  phase transition per invocation.  Modelled here by `tick` and
  `resync`.
* `src/unnamed/part_000` — an older, decrement-based version whose
  interval callback subtracts one second per firing and stops the clock
  (`setIsActive(false)`) when a phase expires.  Modelled by `tickV0`.

All wall-clock instants are modelled in milliseconds as `Int`
(JavaScript `Date.now()`), durations and remaining time in seconds as
`Int`.  `Math.floor((a - b) / 1000)` on integer inputs is `Int.fdiv`
(floor division).  JavaScript truthiness of a `number | null` value
(`null`, `0` falsy) is modelled explicitly by `jsOrNum` / `numTruthy`.
-/

namespace Pomodoro

/-- Posture: the two-valued position enum (`'sitting' | 'standing'`). -/
inductive Position where
  | sitting
  | standing
deriving DecidableEq, Repr

/-- `p === 'sitting' ? 'standing' : 'sitting'` — the opposite posture. -/
def complement : Position → Position
  | .sitting => .standing
  | .standing => .sitting

/-- The component state: every `useState` cell of `PomodoroTimer` that the
claims are about (presentation-only cells such as `showSettings` and
`notificationPermission` are out of scope). -/
structure PomoState where
  workTime : Int
  breakTime : Int
  currentTime : Int
  isActive : Bool
  isWorkSession : Bool
  cycleCount : Nat
  startTime : Option Int
  sessionStartTime : Option Int
  currentPosition : Position
  nextPosition : Position
  startingPosition : Position
deriving DecidableEq, Repr

/-- The initial `useState` values: 30 min work, 10 min break, paused in a
work session, sitting first. -/
def initialState : PomoState :=
  { workTime := 30 * 60
    breakTime := 10 * 60
    currentTime := 30 * 60
    isActive := false
    isWorkSession := true
    cycleCount := 0
    startTime := none
    sessionStartTime := none
    currentPosition := .sitting
    nextPosition := .standing
    startingPosition := .sitting }

/-- JavaScript `x || d` for `x : number | null`: `null` and `0` are falsy. -/
def jsOrNum (x : Option Int) (d : Int) : Int :=
  match x with
  | some a => if a = 0 then d else a
  | none => d

/-- JavaScript truthiness of a `number | null` value. -/
def numTruthy (x : Option Int) : Bool :=
  match x with
  | some a => a != 0
  | none => false

/-- The interval callback of the timer `useEffect` in `Pomodoro.tsx`
(lines 94–141).  The interval only exists while `isActive`, so the
callback is a no-op otherwise.  `effectNow` is the `now` captured when the
effect ran, used as the fallback anchor (`sessionStartTime || now`); in
every claim below the anchor is set, so we pass `currentNow` for it. -/
def tickAt (effectNow currentNow : Int) (s : PomoState) : PomoState :=
  if s.isActive then
    let totalSessionTime := if s.isWorkSession then s.workTime else s.breakTime
    let elapsedTime := Int.fdiv (currentNow - jsOrNum s.sessionStartTime effectNow) 1000
    let remainingTime := max 0 (totalSessionTime - elapsedTime)
    if remainingTime ≤ 0 then
      if s.isWorkSession then
        { s with
          isWorkSession := false
          currentTime := s.breakTime
          cycleCount := s.cycleCount + 1
          sessionStartTime := some currentNow
          currentPosition := s.nextPosition
          nextPosition := s.currentPosition }
      else
        { s with
          isWorkSession := true
          currentTime := s.workTime
          sessionStartTime := some currentNow
          currentPosition := s.nextPosition
          nextPosition := s.currentPosition }
    else
      { s with currentTime := remainingTime }
  else s

/-- `tick(now)`: the interval callback with the fallback anchor equal to
the firing instant (the situation in every steady running state, where
`sessionStartTime` is set and the fallback is irrelevant). -/
def tick (currentNow : Int) (s : PomoState) : PomoState :=
  tickAt currentNow currentNow s

/-- `handleVisibilityChange` in `Pomodoro.tsx` (lines 167–213), for the
case `!document.hidden` (tab became visible): guarded by
`isActive && sessionStartTime` (JavaScript truthiness, so an anchor of
`0` also skips), recomputes the remaining time from the anchor and fires
at most one phase transition. -/
def resync (now : Int) (s : PomoState) : PomoState :=
  if s.isActive && numTruthy s.sessionStartTime then
    let anchor := s.sessionStartTime.getD 0
    let totalSessionTime := if s.isWorkSession then s.workTime else s.breakTime
    let elapsedTime := Int.fdiv (now - anchor) 1000
    let remainingTime := max 0 (totalSessionTime - elapsedTime)
    if remainingTime ≤ 0 then
      if s.isWorkSession then
        { s with
          isWorkSession := false
          currentTime := s.breakTime
          cycleCount := s.cycleCount + 1
          sessionStartTime := some now
          currentPosition := s.nextPosition
          nextPosition := s.currentPosition }
      else
        { s with
          isWorkSession := true
          currentTime := s.workTime
          sessionStartTime := some now
          currentPosition := s.nextPosition
          nextPosition := s.currentPosition }
    else
      { s with currentTime := remainingTime }
  else s

/-- `startTimer` (lines 236–241): unconditionally activates and re-anchors
both timestamps to `now`. -/
def startTimer (now : Int) (s : PomoState) : PomoState :=
  { s with isActive := true, startTime := some now, sessionStartTime := some now }

/-- `pauseTimer` (lines 243–247): deactivates and clears both anchors;
`currentTime` keeps its last computed value. -/
def pauseTimer (s : PomoState) : PomoState :=
  { s with isActive := false, startTime := none, sessionStartTime := none }

/-- `resetTimer` (lines 249–260). -/
def resetTimer (s : PomoState) : PomoState :=
  { s with
    isActive := false
    isWorkSession := true
    currentTime := s.workTime
    currentPosition := s.startingPosition
    nextPosition := complement s.startingPosition
    cycleCount := 0
    startTime := none
    sessionStartTime := none }

/-- `togglePosition` (lines 66–72): `newPosition` is the opposite of
`currentPosition` and `newNext` the opposite of `newPosition`. -/
def togglePosition (s : PomoState) : PomoState :=
  let newPosition := complement s.currentPosition
  let newNext := complement newPosition
  { s with currentPosition := newPosition, nextPosition := newNext }

/-- `updateWorkTime(minutes)` (lines 263–269): stores `minutes * 60`
unconditionally; also resets the displayed time when paused in a work
session. -/
def updateWorkTime (minutes : Int) (s : PomoState) : PomoState :=
  let seconds := minutes * 60
  { s with
    workTime := seconds
    currentTime := if s.isWorkSession && !s.isActive then seconds else s.currentTime }

/-- `updateBreakTime(minutes)` (lines 271–277): symmetric to
`updateWorkTime`. -/
def updateBreakTime (minutes : Int) (s : PomoState) : PomoState :=
  let seconds := minutes * 60
  { s with
    breakTime := seconds
    currentTime := if !s.isWorkSession && !s.isActive then seconds else s.currentTime }

/-- `setInitialPosition` (lines 279–283). -/
def setInitialPosition (p : Position) (s : PomoState) : PomoState :=
  { s with
    startingPosition := p
    currentPosition := p
    nextPosition := complement p }

/-- `parseInt(e.target.value) || d`: a failed parse (`NaN`, modelled as
`none`) and a parse result of `0` are falsy and give the default `d`;
every other integer, including negative ones, passes through. -/
def parseIntOr (parsed : Option Int) (d : Int) : Int :=
  match parsed with
  | some n => if n = 0 then d else n
  | none => d

/-- The work-duration input pipeline (line 482–486):
`updateWorkTime(parseInt(e.target.value) || 25)`. -/
def handleWorkInput (parsed : Option Int) (s : PomoState) : PomoState :=
  updateWorkTime (parseIntOr parsed 25) s

/-- The break-duration input pipeline (line 500–504):
`updateBreakTime(parseInt(e.target.value) || 5)`. -/
def handleBreakInput (parsed : Option Int) (s : PomoState) : PomoState :=
  updateBreakTime (parseIntOr parsed 5) s

/-- The interval callback of the older decrement-based version
(`src/unnamed/part_000`, lines 64–108): runs only while
`isActive && currentTime > 0`; on expiry (`prevTime <= 1`) it stops the
clock (`setIsActive(false)`), flips the phase, reloads the new phase's
duration, bumps the cycle count on a work expiry, and swaps the
positions; otherwise it decrements by one second. -/
def tickV0 (s : PomoState) : PomoState :=
  if s.isActive && decide (0 < s.currentTime) then
    if s.currentTime ≤ 1 then
      if s.isWorkSession then
        { s with
          isActive := false
          isWorkSession := false
          currentTime := s.breakTime
          cycleCount := s.cycleCount + 1
          currentPosition := s.nextPosition
          nextPosition := s.currentPosition }
      else
        { s with
          isActive := false
          isWorkSession := true
          currentTime := s.workTime
          currentPosition := s.nextPosition
          nextPosition := s.currentPosition }
    else
      { s with currentTime := s.currentTime - 1 }
  else s

/-- The position-rotator invariant: `nextPosition` is the complement of
`currentPosition`. -/
def posInvariant (s : PomoState) : Prop :=
  s.nextPosition = complement s.currentPosition

instance (s : PomoState) : Decidable (posInvariant s) := by
  unfold posInvariant; infer_instance

/-- A running work session with 25 min work / 5 min break, started at
`t = 1000` ms: `startTimer` applied after the two settings updates. -/
def c1Start : PomoState :=
  startTimer 1000 (updateBreakTime 5 (updateWorkTime 25 initialState))

/-- The default clock started at `t = 1000` ms and ticked at
`t = 601000` ms, i.e. 600 s into the 1800 s work phase. -/
def c2Mid : PomoState := tick 601000 (startTimer 1000 initialState)

/-- `c2Mid` paused, immediately restarted at the same instant
(`t = 601000` ms), and then ticked at that same instant. -/
def c2Restart : PomoState := tick 601000 (startTimer 601000 (pauseTimer c2Mid))

/-- A running work session of the decrement-based version, one second
before expiry. -/
def c3State : PomoState := { initialState with isActive := true, currentTime := 1 }

/-- The default clock running since `t = 1000` ms. -/
def c7State : PomoState := startTimer 1000 initialState

/-- States reachable from the initial render by the component's
operations (the interval callback with any fallback/firing instants, the
visibility resync, the control buttons and the settings handlers). -/
inductive Reachable : PomoState → Prop where
  | init : Reachable initialState
  | tick : ∀ s en cn, Reachable s → Reachable (tickAt en cn s)
  | resync : ∀ s now, Reachable s → Reachable (resync now s)
  | start : ∀ s now, Reachable s → Reachable (startTimer now s)
  | pause : ∀ s, Reachable s → Reachable (pauseTimer s)
  | reset : ∀ s, Reachable s → Reachable (resetTimer s)
  | toggle : ∀ s, Reachable s → Reachable (togglePosition s)
  | workInput : ∀ s p, Reachable s → Reachable (handleWorkInput p s)
  | breakInput : ∀ s p, Reachable s → Reachable (handleBreakInput p s)
  | setPos : ∀ s p, Reachable s → Reachable (setInitialPosition p s)
  | tickOld : ∀ s, Reachable s → Reachable (tickV0 s)

lemma complement_complement (p : Position) : complement (complement p) = p := by
  cases p <;> rfl

lemma posInvariant_tickAt (en cn : Int) (s : PomoState) (h : posInvariant s) :
    posInvariant (tickAt en cn s) := by
  unfold posInvariant at *
  unfold tickAt
  dsimp only
  repeat' split
  all_goals simp_all [complement_complement]

lemma posInvariant_resync (now : Int) (s : PomoState) (h : posInvariant s) :
    posInvariant (resync now s) := by
  unfold posInvariant at *
  unfold resync
  dsimp only
  repeat' split
  all_goals simp_all [complement_complement]

lemma posInvariant_tickV0 (s : PomoState) (h : posInvariant s) :
    posInvariant (tickV0 s) := by
  unfold posInvariant at *
  unfold tickV0
  repeat' split
  all_goals simp_all [complement_complement]

/-- Every reachable state satisfies the position-rotator invariant. -/
lemma reachable_posInvariant : ∀ s, Reachable s → posInvariant s := by
  intro s h
  induction h with
  | init => decide
  | tick s en cn _ ih => exact posInvariant_tickAt en cn s ih
  | resync s now _ ih => exact posInvariant_resync now s ih
  | start s now _ ih => exact ih
  | pause s _ ih => exact ih
  | reset s _ _ => simp [posInvariant, resetTimer]
  | toggle s _ _ => simp [posInvariant, togglePosition]
  | workInput s p _ ih => exact ih
  | breakInput s p _ ih => exact ih
  | setPos s p _ _ => simp [posInvariant, setInitialPosition]
  | tickOld s _ ih => exact posInvariant_tickV0 s ih

/-- The interval callback on a running expired work phase fires exactly
the work-to-break transition. -/
lemma tickAt_work_expired (en cn : Int) (s : PomoState)
    (hact : s.isActive = true) (hwork : s.isWorkSession = true)
    (hexp : s.workTime - Int.fdiv (cn - jsOrNum s.sessionStartTime en) 1000 ≤ 0) :
    tickAt en cn s =
      { s with
        isWorkSession := false
        currentTime := s.breakTime
        cycleCount := s.cycleCount + 1
        sessionStartTime := some cn
        currentPosition := s.nextPosition
        nextPosition := s.currentPosition } := by
  unfold tickAt
  rw [if_pos hact]
  dsimp only
  rw [hwork]
  simp only [if_true]
  rw [if_pos (by simpa [max_le_iff] using hexp)]

/-- The interval callback on a running unexpired phase only updates the
displayed remaining time. -/
lemma tickAt_not_expired (en cn : Int) (s : PomoState)
    (hact : s.isActive = true)
    (hpos : 0 < (if s.isWorkSession then s.workTime else s.breakTime) -
      Int.fdiv (cn - jsOrNum s.sessionStartTime en) 1000) :
    tickAt en cn s =
      { s with
        currentTime := (if s.isWorkSession then s.workTime else s.breakTime) -
          Int.fdiv (cn - jsOrNum s.sessionStartTime en) 1000 } := by
  unfold tickAt
  rw [if_pos hact]
  dsimp only
  rw [if_neg (by simp [max_le_iff]; omega), max_eq_right (le_of_lt hpos)]

/-- The visibility-resync handler on a running expired work phase fires
exactly the work-to-break transition. -/
lemma resync_work_expired (now t0 : Int) (s : PomoState)
    (hanchor : s.sessionStartTime = some t0) (ht0 : t0 ≠ 0)
    (hact : s.isActive = true) (hwork : s.isWorkSession = true)
    (hexp : s.workTime - Int.fdiv (now - t0) 1000 ≤ 0) :
    resync now s =
      { s with
        isWorkSession := false
        currentTime := s.breakTime
        cycleCount := s.cycleCount + 1
        sessionStartTime := some now
        currentPosition := s.nextPosition
        nextPosition := s.currentPosition } := by
  unfold resync
  rw [hanchor]
  simp only [numTruthy, hact, Option.getD_some, Bool.true_and, bne_iff_ne, ne_eq, ht0,
    not_false_eq_true, if_true]
  rw [hwork]
  simp only [if_true]
  rw [if_pos (by simpa [max_le_iff] using hexp)]

/-- Claim C1, counterexample: with workDuration 1500 s and breakDuration
300 s, running in the Work phase anchored at `t = 1000` ms, a single
resync invocation after `workDuration + breakDuration + 1 = 1801` s does
not yield the claimed state (Work phase, `cycleCount = 1`,
`remaining = workDuration - 1 = 1499`): the handler fires at most one
transition per invocation. -/
theorem c1_counterexample :
    ¬ ((resync 1802000 c1Start).isWorkSession = true ∧
       (resync 1802000 c1Start).cycleCount = 1 ∧
       (resync 1802000 c1Start).currentTime = 1500 - 1) := by
  decide

/-- Claim C1 (amended): if the clock is running in the Work phase with
`cycleCount = 0` and a nonzero anchor, and simulated time advances by
`workDuration + breakDuration + 1` seconds with no intervening tick, then
a single invocation of the resync operation processes only the first
missed expiry: the resulting state is the Break phase with
`cycleCount = 1` and `remaining = breakDuration`, re-anchored at the
resync instant (the second missed expiry is left to a later tick or
resync). -/
theorem c1_resync_single_transition (s : PomoState) (t0 now : Int)
    (hact : s.isActive = true) (hwork : s.isWorkSession = true)
    (hcyc : s.cycleCount = 0) (hanchor : s.sessionStartTime = some t0)
    (ht0 : t0 ≠ 0) (hb : 0 ≤ s.breakTime)
    (hnow : now = t0 + (s.workTime + s.breakTime + 1) * 1000) :
    (resync now s).isWorkSession = false ∧
    (resync now s).cycleCount = 1 ∧
    (resync now s).currentTime = s.breakTime ∧
    (resync now s).sessionStartTime = some now := by
  have helapsed : Int.fdiv (now - t0) 1000 = s.workTime + s.breakTime + 1 := by
    rw [hnow, add_sub_cancel_left]
    exact Int.mul_fdiv_cancel _ (by norm_num)
  have hexp : s.workTime - Int.fdiv (now - t0) 1000 ≤ 0 := by
    rw [helapsed]; omega
  rw [resync_work_expired now t0 s hanchor ht0 hact hwork hexp]
  exact ⟨rfl, by simp [hcyc], rfl, rfl⟩

/-- Claim C1, witness: the amended theorem at the concrete 25 min work /
5 min break scenario. -/
theorem c1_witness :
    (resync 1802000 c1Start).isWorkSession = false ∧
    (resync 1802000 c1Start).cycleCount = 1 ∧
    (resync 1802000 c1Start).currentTime = c1Start.breakTime ∧
    (resync 1802000 c1Start).sessionStartTime = some 1802000 :=
  c1_resync_single_transition c1Start 1000 1802000 (by decide) (by decide)
    (by decide) (by decide) (by decide) (by decide) (by decide)

/-- Claim C2, counterexample: 600 s into the default 1800 s work phase
the remaining time is frozen at 1200 s by `pauseTimer`; after restarting
at the very same instant, the first tick recomputes the remaining time as
the full 1800 s, not the frozen 1200 s. -/
theorem c2_counterexample :
    c2Mid.currentTime = 1200 ∧ c2Restart.currentTime = 1800 ∧
    c2Restart.currentTime ≠ c2Mid.currentTime := by
  decide

/-- Claim C2 (amended): `pause()` followed immediately by `start()` with
zero elapsed real time leaves the stored remaining value unchanged, but
the first tick after the restart recomputes the remaining time from the
fresh anchor as the full duration of the current phase — it reproduces
the value frozen by `pause()` only when that value already equalled the
full phase duration. -/
theorem c2_pause_start_restarts_phase (s : PomoState) (now : Int)
    (hdur : 0 < (if s.isWorkSession then s.workTime else s.breakTime)) :
    (startTimer now (pauseTimer s)).currentTime = s.currentTime ∧
    (tick now (startTimer now (pauseTimer s))).currentTime =
      (if s.isWorkSession then s.workTime else s.breakTime) := by
  refine ⟨rfl, ?_⟩
  have hpos : 0 < (if (startTimer now (pauseTimer s)).isWorkSession
      then (startTimer now (pauseTimer s)).workTime
      else (startTimer now (pauseTimer s)).breakTime) -
      Int.fdiv (now - jsOrNum (startTimer now (pauseTimer s)).sessionStartTime now) 1000 := by
    simpa [startTimer, pauseTimer, jsOrNum] using hdur
  rw [tick, tickAt_not_expired now now _ rfl hpos]
  simp [startTimer, pauseTimer, jsOrNum]

/-- Claim C2, witness: the amended theorem at the concrete mid-phase
state of the counterexample. -/
theorem c2_witness :
    (startTimer 601000 (pauseTimer c2Mid)).currentTime = c2Mid.currentTime ∧
    (tick 601000 (startTimer 601000 (pauseTimer c2Mid))).currentTime =
      (if c2Mid.isWorkSession then c2Mid.workTime else c2Mid.breakTime) :=
  c2_pause_start_restarts_phase c2Mid 601000 (by decide)

/-- Claim C3, counterexample: in the decrement-based version
(`src/unnamed/part_000`), the interval callback on a running work phase
one second before expiry fires a Work-to-Break transition and stops the
clock (`isActive = false`), so the machine does not cycle without further
user action. -/
theorem c3_counterexample :
    (tickV0 c3State).isWorkSession = false ∧
    (tickV0 c3State).cycleCount = 1 ∧
    (tickV0 c3State).isActive = false := by
  decide

/-- Claim C3 (amended): in the anchor-based `Pomodoro.tsx` the interval
callback and the resync handler never change `isActive`, so every
expiry-triggered transition leaves the clock running and the machine
cycles indefinitely; in the decrement-based `part_000` version the
interval callback sets `isActive` to `false` on every expiry, so that
version halts after each transition until the user starts it again. -/
theorem c3_transition_keeps_running :
    (∀ s en cn, (tickAt en cn s).isActive = s.isActive) ∧
    (∀ s now, (resync now s).isActive = s.isActive) ∧
    (∀ s, s.isActive = true → s.currentTime = 1 → (tickV0 s).isActive = false) := by
  refine ⟨?_, ?_, ?_⟩
  · intro s en cn
    unfold tickAt
    dsimp only
    repeat' split
    all_goals rfl
  · intro s now
    unfold resync
    dsimp only
    repeat' split
    all_goals rfl
  · intro s h1 h2
    unfold tickV0
    rw [h2]
    simp only [h1]
    norm_num
    split <;> rfl

/-- Claim C3, witness: the amended theorem at a running tick of the
default state and at the expiring concrete state of the counterexample. -/
theorem c3_witness :
    (tickAt 5 5 initialState).isActive = initialState.isActive ∧
    (tickV0 c3State).isActive = false :=
  ⟨c3_transition_keeps_running.1 initialState 5 5,
   c3_transition_keeps_running.2.2 c3State (by decide) (by decide)⟩

/-- Claim C4: starting the clock in the Work phase (with `cycleCount = 0`
and a positive break duration) and advancing simulated time by exactly
`workDuration` seconds, then invoking tick, yields exactly one
Work-to-Break transition: afterwards the phase is Break, `cycleCount = 1`
and `remaining = breakDuration`, re-anchored at `now`; a second tick at
the same instant fires no further transition for the same expiry. -/
theorem c4_exactly_one_transition (s : PomoState) (t0 now : Int)
    (hwork : s.isWorkSession = true) (hcyc : s.cycleCount = 0)
    (ht0 : t0 ≠ 0) (hb : 0 < s.breakTime)
    (hnow : now = t0 + s.workTime * 1000) :
    (tick now (startTimer t0 s)).isWorkSession = false ∧
    (tick now (startTimer t0 s)).cycleCount = 1 ∧
    (tick now (startTimer t0 s)).currentTime = s.breakTime ∧
    (tick now (startTimer t0 s)).sessionStartTime = some now ∧
    (tick now (tick now (startTimer t0 s))).isWorkSession = false ∧
    (tick now (tick now (startTimer t0 s))).cycleCount = 1 ∧
    (tick now (tick now (startTimer t0 s))).currentTime = s.breakTime := by
  have hexp1 : (startTimer t0 s).workTime -
      Int.fdiv (now - jsOrNum (startTimer t0 s).sessionStartTime now) 1000 ≤ 0 := by
    simp only [startTimer, jsOrNum]
    rw [if_neg ht0, hnow, add_sub_cancel_left, Int.mul_fdiv_cancel _ (by norm_num)]
    omega
  have h1 : tickAt now now (startTimer t0 s) =
      { s with
        isActive := true
        startTime := some t0
        isWorkSession := false
        currentTime := s.breakTime
        cycleCount := s.cycleCount + 1
        sessionStartTime := some now
        currentPosition := s.nextPosition
        nextPosition := s.currentPosition } := by
    rw [tickAt_work_expired now now (startTimer t0 s) rfl hwork hexp1]
    rfl
  have hpos2 : 0 < (if ({ s with
        isActive := true
        startTime := some t0
        isWorkSession := false
        currentTime := s.breakTime
        cycleCount := s.cycleCount + 1
        sessionStartTime := some now
        currentPosition := s.nextPosition
        nextPosition := s.currentPosition } : PomoState).isWorkSession
      then s.workTime else s.breakTime) -
      Int.fdiv (now - jsOrNum (some now) now) 1000 := by
    simpa [jsOrNum] using hb
  have h2 : tickAt now now ({ s with
        isActive := true
        startTime := some t0
        isWorkSession := false
        currentTime := s.breakTime
        cycleCount := s.cycleCount + 1
        sessionStartTime := some now
        currentPosition := s.nextPosition
        nextPosition := s.currentPosition } : PomoState) =
      { s with
        isActive := true
        startTime := some t0
        isWorkSession := false
        currentTime := s.breakTime
        cycleCount := s.cycleCount + 1
        sessionStartTime := some now
        currentPosition := s.nextPosition
        nextPosition := s.currentPosition } := by
    rw [tickAt_not_expired now now _ rfl hpos2]
    simp [jsOrNum]
  simp only [tick]
  rw [h1, h2]
  exact ⟨rfl, by simp [hcyc], rfl, rfl, rfl, by simp [hcyc], rfl⟩

/-- Claim C4, witness: the default 1800 s work / 600 s break clock
started at `t = 1000` ms and ticked at `t = 1000 + 1800 * 1000` ms. -/
theorem c4_witness :
    (tick 1801000 (startTimer 1000 initialState)).isWorkSession = false ∧
    (tick 1801000 (startTimer 1000 initialState)).cycleCount = 1 ∧
    (tick 1801000 (startTimer 1000 initialState)).currentTime = initialState.breakTime ∧
    (tick 1801000 (startTimer 1000 initialState)).sessionStartTime = some 1801000 ∧
    (tick 1801000 (tick 1801000 (startTimer 1000 initialState))).isWorkSession = false ∧
    (tick 1801000 (tick 1801000 (startTimer 1000 initialState))).cycleCount = 1 ∧
    (tick 1801000 (tick 1801000 (startTimer 1000 initialState))).currentTime =
      initialState.breakTime :=
  c4_exactly_one_transition initialState 1000 1801000 (by decide) (by decide)
    (by decide) (by decide) (by decide)

/-- Claim C5: in every reachable state `nextPosition` is the complement
of `currentPosition`, and each operation — the manual toggle, the
expiry-driven swap inside the interval callback and the resync handler,
`setInitialPosition`, reset, and the old decrement-based callback —
preserves this invariant. -/
theorem c5_position_invariant :
    (∀ s, Reachable s → posInvariant s) ∧
    (∀ s, posInvariant s →
      posInvariant (togglePosition s) ∧
      (∀ en cn, posInvariant (tickAt en cn s)) ∧
      (∀ now, posInvariant (resync now s)) ∧
      (∀ p, posInvariant (setInitialPosition p s)) ∧
      posInvariant (resetTimer s) ∧
      posInvariant (tickV0 s)) := by
  refine ⟨reachable_posInvariant, ?_⟩
  intro s h
  exact ⟨by simp [posInvariant, togglePosition],
    fun en cn => posInvariant_tickAt en cn s h,
    fun now => posInvariant_resync now s h,
    fun p => by simp [posInvariant, setInitialPosition],
    by simp [posInvariant, resetTimer],
    posInvariant_tickV0 s h⟩

/-- Claim C5, witness: the invariant after a manual toggle of the initial
state and after a reset of a running state. -/
theorem c5_witness :
    posInvariant (togglePosition initialState) ∧
    posInvariant (resetTimer (startTimer 1000 initialState)) :=
  ⟨(c5_position_invariant.2 initialState (by decide)).1,
   c5_position_invariant.1 _ (Reachable.reset _ (Reachable.start _ 1000 Reachable.init))⟩

/-- Claim C6, counterexample: the duration handlers do not clamp — a
parsed work input of 200 minutes stores 12000 s (above the documented
5400 s bound), a parsed work input of -5 stores -300 s instead of the
25 min default, and a parsed break input of 99 minutes stores 5940 s
(above the documented 1800 s bound). -/
theorem c6_counterexample :
    (handleWorkInput (some 200) initialState).workTime = 12000 ∧
    ¬ (handleWorkInput (some 200) initialState).workTime ≤ 5400 ∧
    (handleWorkInput (some (-5)) initialState).workTime = -300 ∧
    (handleBreakInput (some 99) initialState).breakTime = 5940 := by
  decide

/-- Claim C6 (amended): the handlers apply no clamping: for any parsed
integer input the stored duration is exactly `parsed * 60` seconds, even
for negative or out-of-bounds values; only a non-numeric (`NaN`) or zero
input falls back to the defaults (25 minutes for work, 5 for break),
because JavaScript `parseInt(v) || d` treats `NaN` and `0` as falsy. The
1–90 and 1–30 minute bounds exist only as HTML input attributes. -/
theorem c6_no_clamping (p : Option Int) (s : PomoState) (d n : Int)
    (hn : n ≠ 0) :
    (handleWorkInput p s).workTime = parseIntOr p 25 * 60 ∧
    (handleBreakInput p s).breakTime = parseIntOr p 5 * 60 ∧
    parseIntOr none d = d ∧
    parseIntOr (some 0) d = d ∧
    parseIntOr (some n) d = n := by
  refine ⟨rfl, rfl, rfl, rfl, ?_⟩
  simp [parseIntOr, hn]

/-- Claim C6, witness: the amended theorem at a parsed input of 7
minutes. -/
theorem c6_witness :
    (handleWorkInput (some 7) initialState).workTime = parseIntOr (some 7) 25 * 60 ∧
    (handleBreakInput (some 7) initialState).breakTime = parseIntOr (some 7) 5 * 60 ∧
    parseIntOr none 25 = 25 ∧
    parseIntOr (some 0) 25 = 25 ∧
    parseIntOr (some 7) 25 = 7 :=
  c6_no_clamping (some 7) initialState 25 7 (by decide)

/-- Claim C7, counterexample: calling `startTimer` on a clock already
running since `t = 1000` ms is not a no-op — at `t = 5000` ms it
re-anchors `startTime` and `sessionStartTime`, changing the state. -/
theorem c7_counterexample :
    c7State.isActive = true ∧ startTimer 5000 c7State ≠ c7State := by
  decide

/-- Claim C7 (amended): calling `start()` when the clock is already
running leaves the running flag, durations, remaining time, phase, cycle
count and positions unchanged, but unconditionally re-anchors `startTime`
and `sessionStartTime` to the current instant, restarting the current
phase's countdown; it is a no-op only when `now` equals the existing
anchor. -/
theorem c7_start_reanchors (s : PomoState) (now : Int)
    (hact : s.isActive = true) :
    (startTimer now s).isActive = s.isActive ∧
    (startTimer now s).workTime = s.workTime ∧
    (startTimer now s).breakTime = s.breakTime ∧
    (startTimer now s).currentTime = s.currentTime ∧
    (startTimer now s).isWorkSession = s.isWorkSession ∧
    (startTimer now s).cycleCount = s.cycleCount ∧
    (startTimer now s).currentPosition = s.currentPosition ∧
    (startTimer now s).nextPosition = s.nextPosition ∧
    (startTimer now s).startingPosition = s.startingPosition ∧
    (startTimer now s).startTime = some now ∧
    (startTimer now s).sessionStartTime = some now :=
  ⟨hact.symm, rfl, rfl, rfl, rfl, rfl, rfl, rfl, rfl, rfl, rfl⟩

/-- Claim C7, witness: the amended theorem at the running concrete state
of the counterexample. -/
theorem c7_witness :
    (startTimer 5000 c7State).isActive = c7State.isActive ∧
    (startTimer 5000 c7State).workTime = c7State.workTime ∧
    (startTimer 5000 c7State).breakTime = c7State.breakTime ∧
    (startTimer 5000 c7State).currentTime = c7State.currentTime ∧
    (startTimer 5000 c7State).isWorkSession = c7State.isWorkSession ∧
    (startTimer 5000 c7State).cycleCount = c7State.cycleCount ∧
    (startTimer 5000 c7State).currentPosition = c7State.currentPosition ∧
    (startTimer 5000 c7State).nextPosition = c7State.nextPosition ∧
    (startTimer 5000 c7State).startingPosition = c7State.startingPosition ∧
    (startTimer 5000 c7State).startTime = some 5000 ∧
    (startTimer 5000 c7State).sessionStartTime = some 5000 :=
  c7_start_reanchors c7State 5000 (by decide)

/-- Claim C8: from every state, `resetTimer` yields exactly the Work
phase, `remaining = workDuration`, `cycleCount = 0`,
`currentPosition = startingPosition`,
`nextPosition = complement startingPosition`, not running, and both
anchors cleared. -/
theorem c8_reset (s : PomoState) :
    (resetTimer s).isWorkSession = true ∧
    (resetTimer s).currentTime = s.workTime ∧
    (resetTimer s).cycleCount = 0 ∧
    (resetTimer s).currentPosition = s.startingPosition ∧
    (resetTimer s).nextPosition = complement s.startingPosition ∧
    (resetTimer s).isActive = false ∧
    (resetTimer s).startTime = none ∧
    (resetTimer s).sessionStartTime = none :=
  ⟨rfl, rfl, rfl, rfl, rfl, rfl, rfl, rfl⟩

/-- Claim C9: for every reachable state — running or not — applying the
manual toggle twice returns `currentPosition` and `nextPosition` to their
original values. -/
theorem c9_toggle_involution (s : PomoState) (h : Reachable s) :
    (togglePosition (togglePosition s)).currentPosition = s.currentPosition ∧
    (togglePosition (togglePosition s)).nextPosition = s.nextPosition := by
  have hinv := reachable_posInvariant s h
  unfold posInvariant at hinv
  constructor
  · simp [togglePosition, complement_complement]
  · simp [togglePosition, complement_complement, hinv]

/-- Claim C9, witness: the round trip on a running reachable state. -/
theorem c9_witness :
    (togglePosition (togglePosition (startTimer 42 initialState))).currentPosition =
      (startTimer 42 initialState).currentPosition ∧
    (togglePosition (togglePosition (startTimer 42 initialState))).nextPosition =
      (startTimer 42 initialState).nextPosition :=
  c9_toggle_involution (startTimer 42 initialState)
    (Reachable.start _ 42 Reachable.init)

/-- Claim C10: the manual position toggle changes only `currentPosition`
and `nextPosition`: durations, remaining time, running flag, phase, cycle
count, starting position and both anchors are unchanged. -/
theorem c10_toggle_frame (s : PomoState) :
    (togglePosition s).workTime = s.workTime ∧
    (togglePosition s).breakTime = s.breakTime ∧
    (togglePosition s).currentTime = s.currentTime ∧
    (togglePosition s).isActive = s.isActive ∧
    (togglePosition s).isWorkSession = s.isWorkSession ∧
    (togglePosition s).cycleCount = s.cycleCount ∧
    (togglePosition s).startTime = s.startTime ∧
    (togglePosition s).sessionStartTime = s.sessionStartTime ∧
    (togglePosition s).startingPosition = s.startingPosition :=
  ⟨rfl, rfl, rfl, rfl, rfl, rfl, rfl, rfl, rfl⟩

end Pomodoro
